import Mathlib

/-!
Verification development for the Py4Lexis client library.

Each definition below is a shallow embedding of a function of the
repository (file and line references are given in the doc comments).
Python dictionaries are modelled as association lists of `PyVal`,
HTTP traffic is modelled by explicit response values / scripted oracles,
and stateful methods become explicit state-passing functions.
-/

set_option autoImplicit false

namespace Py4Lexis

/-- Model of a Python/JSON value as it appears in decoded HTTP bodies
and keyword dictionaries of the library. -/
inductive PyVal where
  | str : String → PyVal
  | int : Nat → PyVal
  | pynone : PyVal
  | dict : List (String × PyVal) → PyVal
  | list : List PyVal → PyVal
deriving Repr

/-- Python dictionary lookup `d[key]` returning `none` on a missing key
(the caller decides whether that is a `KeyError` or a guarded access). -/
def lookupField : List (String × PyVal) → String → Option PyVal
  | [], _ => none
  | (k, v) :: rest, key => if k = key then some v else lookupField rest key

/-- Python `str()` on the scalar values the library formats. -/
def pyStrOf : PyVal → String
  | PyVal.str s => s
  | PyVal.int n => toString n
  | PyVal.pynone => "None"
  | PyVal.dict _ => ""
  | PyVal.list _ => ""

/-! ## custom_types/directory_tree.py -/

/-- State built by `TreeFileObject.__init__`
(src/src/py4lexis/custom_types/directory_tree.py lines 56-80). -/
structure TreeFileObj where
  checksum : PyVal
  create_time : PyVal
  size : PyVal
  name : PyVal
deriving Repr

/-- Transcription of `TreeFileObject.__init__`: every guarded key access
falls back to the literal placeholder spelled in the source
("UKNOWN Checksum", "UKNOWN Create Time", "UKNOWN size", "UKNOWN name");
a checksum equal to Python `None` becomes the string "None". -/
def mkTreeFileObj (file : List (String × PyVal)) : TreeFileObj :=
  ⟨ match lookupField file "checksum" with
    | some PyVal.pynone => PyVal.str "None"
    | some v => v
    | none => PyVal.str "UKNOWN Checksum",
    match lookupField file "create_time" with
    | some v => v
    | none => PyVal.str "UKNOWN Create Time",
    match lookupField file "size" with
    | some v => v
    | none => PyVal.str "UKNOWN size",
    match lookupField file "name" with
    | some v => v
    | none => PyVal.str "UKNOWN name" ⟩

/-- State built by `TreeDirectoryObject.__init__`
(custom_types/directory_tree.py lines 22-29): `contents` is the raw list
and the directory name gets a "/" suffix, or the "UKNOWN_dir/" fallback. -/
structure TreeDirObj where
  contents : List PyVal
  name : String
deriving Repr

/-- Transcription of `TreeDirectoryObject.__init__`; `none` models the
exception raised when `contents` is missing or not a list (the only
structural failure of the builder). -/
def mkTreeDirObj (d : List (String × PyVal)) : Option TreeDirObj :=
  match lookupField d "contents" with
  | some (PyVal.list cs) =>
      match lookupField d "name" with
      | some (PyVal.str s) => some ⟨cs, s ++ "/"⟩
      | some _ => none
      | none => some ⟨cs, "UKNOWN_dir/"⟩
  | _ => none

/-- The two-variant item kind held by a `DirectoryTree` node. -/
inductive TreeItem where
  | dir : TreeDirObj → TreeItem
  | file : TreeFileObj → TreeItem
deriving Repr

def TreeItem.isDir : TreeItem → Bool
  | TreeItem.dir _ => true
  | TreeItem.file _ => false

/-- Name of a tree item as used in path concatenation; directory names
already carry their "/" suffix, file names are `str()`-formatted. -/
def itemNameStr : TreeItem → String
  | TreeItem.dir d => d.name
  | TreeItem.file f => pyStrOf f.name

/-! ## directory_tree.py -/

/-- One node of `DirectoryTree` (directory_tree.py lines 48-55):
the item, the parent back-reference and the last-sibling flag. -/
inductive DNode where
  | mk : TreeItem → Option DNode → Bool → DNode

def DNode.item : DNode → TreeItem
  | DNode.mk t _ _ => t

def DNode.parent : DNode → Option DNode
  | DNode.mk _ p _ => p

def DNode.isLast : DNode → Bool
  | DNode.mk _ _ l => l

/-- Child classification loop of `DirectoryTree.make_tree`
(directory_tree.py lines 79-84): an item whose "type" field equals
"directory" becomes a `TreeDirectoryObject`, any other "type" value a
`TreeFileObject`; a missing "type" key or a non-dictionary item is the
uncaught `KeyError`/`TypeError` path, modelled as `none`. -/
def classifyItem : PyVal → Option TreeItem
  | PyVal.dict fs =>
      match lookupField fs "type" with
      | some (PyVal.str "directory") => (mkTreeDirObj fs).map TreeItem.dir
      | some _ => some (TreeItem.file (mkTreeFileObj fs))
      | none => none
  | _ => none

/-- The `for item in children` loop of `make_tree` (directory_tree.py
lines 86-95): `count == len(children)` marks the last sibling;
directory children are recursed into through `rec` (the recursive
occurrence of `make_tree`), file children are yielded directly. -/
def childLoop (rec : TreeItem → Option DNode → Bool → Option (List DNode))
    (root : DNode) : List TreeItem → Nat → Nat → Option (List DNode)
  | [], _, _ => some []
  | c :: rest, total, count =>
      let isLast : Bool := count = total
      match c with
      | TreeItem.dir d =>
          match rec (TreeItem.dir d) (some root) isLast with
          | none => none
          | some sub =>
              match childLoop rec root rest total (count + 1) with
              | none => none
              | some ns => some (sub ++ ns)
      | TreeItem.file f =>
          match childLoop rec root rest total (count + 1) with
          | none => none
          | some ns => some (DNode.mk (TreeItem.file f) (some root) isLast :: ns)

/-- Transcription of the generator `DirectoryTree.make_tree`
(directory_tree.py lines 57-95) as the list of yielded nodes in order.
The fuel argument bounds the recursion depth (the Python generator
recurses on strictly nested JSON, so any fuel larger than the nesting
depth is enough); calling it on a file item is the source's
`AttributeError` path (files have no `contents`), modelled as `none`. -/
def makeTreeFuel : Nat → TreeItem → Option DNode → Bool → Option (List DNode)
  | 0 => fun _ _ _ => none
  | Nat.succ fuel => fun t parent isLast =>
      match t with
      | TreeItem.file _ => none
      | TreeItem.dir d =>
          let root : DNode := DNode.mk (TreeItem.dir d) parent isLast
          match d.contents.mapM classifyItem with
          | none => none
          | some children =>
              match childLoop (makeTreeFuel fuel) root children children.length 1 with
              | none => none
              | some ns => some (root :: ns)

/-- The `while parent and parent.parent is not None` walk of
`DirectoryTree.to_dataframe_row` (directory_tree.py lines 137-140).
Faithful to the source bug: every iteration appends
`self.parent.tree_item.name` — the name of the node's immediate parent
`nm` — not the name of the ancestor currently visited. -/
def walkParts (nm : String) : DNode → List String
  | DNode.mk _ none _ => []
  | DNode.mk _ (some q) _ => nm :: walkParts nm q

/-- Transcription of `DirectoryTree.to_dataframe_row`
(directory_tree.py lines 122-145): directories yield no row; a file
yields `[name, path, size, create_time, checksum]` where the path is
the reversed join of `[str(name)] ++ walk ++ ["./"]`. -/
def toDataframeRow (n : DNode) : Option (List PyVal) :=
  match n.item with
  | TreeItem.dir _ => none
  | TreeItem.file f =>
      let walk : List String :=
        match n.parent with
        | none => []
        | some p => walkParts (itemNameStr p.item) p
      let parts : List String := pyStrOf f.name :: walk ++ ["./"]
      let path : String := String.join parts.reverse
      some [f.name, PyVal.str path, f.size, f.create_time, f.checksum]

/-- Flattened tabular rendering of one listing: build the tree from the
root directory object exactly as the library's callers do
(`TreeDirectoryObject(content)` then `DirectoryTree.make_tree`), then
keep the non-`None` rows of `to_dataframe_row`. -/
def datasetRows (fuel : Nat) (rootContent : List (String × PyVal)) :
    Option (List (List PyVal)) :=
  (mkTreeDirObj rootContent).bind fun d =>
    (makeTreeFuel fuel (TreeItem.dir d) none false).map fun ns =>
      ns.filterMap toDataframeRow

/-- The two-file example listing of the specification: root directory
"root" containing file "a.txt" and directory "sub" with file "b.txt". -/
def exampleListing : List (String × PyVal) :=
  [("name", PyVal.str "root"), ("type", PyVal.str "directory"),
   ("contents", PyVal.list
     [PyVal.dict [("name", PyVal.str "a.txt"), ("type", PyVal.str "file"),
                  ("size", PyVal.int 10), ("create_time", PyVal.str "T"),
                  ("checksum", PyVal.str "c")],
      PyVal.dict [("name", PyVal.str "sub"), ("type", PyVal.str "directory"),
                  ("contents", PyVal.list
                    [PyVal.dict [("name", PyVal.str "b.txt"),
                                 ("type", PyVal.str "file"),
                                 ("size", PyVal.int 5),
                                 ("create_time", PyVal.str "T2"),
                                 ("checksum", PyVal.str "c2")]])]])]

/-- Path column (index 1) of a row, as a string. -/
def pathStrOfRow (r : List PyVal) : String :=
  match r.get? 1 with
  | some (PyVal.str s) => s
  | _ => ""

/-! ## session.py -/

/-- An HTTP response as the library observes it: the status code, the
result of `response.json()` (`none` when decoding raises
`json.decoder.JSONDecodeError`) and the raw `response.content` bytes. -/
structure HResponse where
  status_code : Nat
  body : Option PyVal
  raw : String

/-- Content slot of the executor's outcome: decoded JSON or raw bytes. -/
inductive RContent where
  | json : PyVal → RContent
  | bytes : String → RContent

/-- Outcome triple of `LexisSession.handle_request_status`. -/
structure HRSOut where
  content : RContent
  solved : Bool
  is_error : Bool

/-- Behaviour of the identity collaborator `uc.rfsh_token` during one
`refresh_token` call: a fresh token pair with a clock reading, or one of
the two caught failure modes (`Py4LexisPostException`, `KeyError`). -/
inductive RefreshOutcome where
  | ok : String → String → Nat → RefreshOutcome
  | postError : RefreshOutcome
  | keyError : RefreshOutcome

/-- The session fields that the claims talk about
(`LexisSession.__init__`, session.py lines 24-125). -/
structure LexisSession where
  TOKEN : String
  REFRESH_TOKEN : String
  token_retrieved_at : Nat
  API_HEADER : List (String × String)
  USERNAME : String
  API_PATH : String
  DFLT_Z : String

/-- Header dictionary installed by `LexisSession.__init__`
(session.py lines 111-115): Authorization plus Content-type. -/
def mkApiHeaderInit (token : String) : List (String × String) :=
  [("Authorization", "Bearer " ++ token), ("Content-type", "application/json")]

/-- Association lookup in a header dictionary. -/
def headerLookup : List (String × String) → String → Option String
  | [], _ => none
  | (k, v) :: rest, key => if k = key then some v else headerLookup rest key

/-- Transcription of `LexisSession.refresh_token` (session.py lines
212-250). On success it overwrites `TOKEN`, `REFRESH_TOKEN`,
`_token_retrieved_at` and replaces `API_HEADER` with the
Authorization-only dictionary of line 229, returning `True`; on either
caught exception the session is left unchanged and `False` is returned. -/
def refresh_token (s : LexisSession) (r : RefreshOutcome) : LexisSession × Bool :=
  match r with
  | RefreshOutcome.ok access refresh at_ =>
      (⟨access, refresh, at_, [("Authorization", "Bearer " ++ access)],
        s.USERNAME, s.API_PATH, s.DFLT_Z⟩, true)
  | RefreshOutcome.postError => (s, false)
  | RefreshOutcome.keyError => (s, false)

/-- Transcription of `LexisSession.handle_request_status` (session.py
lines 252-337).  `status_solved` and `is_error` start `False`, `content`
starts as the empty dictionary; the branches follow the source:
2xx (decode per `to_json`, a decode failure there lands in the `except`
after `status_solved` was already set), 404/5xx (raw bytes, terminal
error), any other status decodes the body — an undecodable body is the
`JSONDecodeError` handler which sets `is_error` but leaves
`status_solved` at its initial `False` — and a decoded body is screened
for the "Inactive token" marker, triggering `refresh_token`. -/
def handle_request_status (s : LexisSession) (resp : HResponse) (to_json : Bool)
    (refreshOut : RefreshOutcome) : LexisSession × HRSOut :=
  if 200 ≤ resp.status_code ∧ resp.status_code ≤ 299 then
    if to_json then
      match resp.body with
      | some v => (s, ⟨RContent.json v, true, false⟩)
      | none => (s, ⟨RContent.json (PyVal.dict []), true, true⟩)
    else (s, ⟨RContent.bytes resp.raw, true, false⟩)
  else if resp.status_code = 404 ∨ 500 ≤ resp.status_code then
    (s, ⟨RContent.bytes resp.raw, true, true⟩)
  else
    match resp.body with
    | none => (s, ⟨RContent.json (PyVal.dict []), false, true⟩)
    | some v =>
        match v with
        | PyVal.dict fs =>
            match lookupField fs "errorString" with
            | some (PyVal.str "Inactive token") =>
                match refresh_token s refreshOut with
                | (s2, true) => (s2, ⟨RContent.json v, false, false⟩)
                | (s2, false) => (s2, ⟨RContent.json v, true, true⟩)
            | some _ => (s, ⟨RContent.json v, true, true⟩)
            | none => (s, ⟨RContent.json v, true, true⟩)
        | _ => (s, ⟨RContent.json v, true, true⟩)

/-- The caller side retry primitive used by every remote operation
(for instance `_ddi_get_download_status`, ddi/datasets.py lines
693-702): `while not status_solved` re-issue the request.  The scripted
list supplies one response per issued request; the returned number
counts the requests actually issued before the loop stopped (or the
script ran out while the loop still wanted to continue). -/
def resolveLoop (to_json : Bool) (refreshOut : RefreshOutcome) :
    LexisSession → List HResponse → LexisSession × HRSOut × Nat
  | s, [] => (s, ⟨RContent.json (PyVal.dict []), false, false⟩, 0)
  | s, resp :: rest =>
      match handle_request_status s resp to_json refreshOut with
      | (s2, out) =>
          if out.solved then (s2, out, 1)
          else
            match resolveLoop to_json refreshOut s2 rest with
            | (s3, out3, n) => (s3, out3, n + 1)

/-- A concrete session for closed evaluations. -/
def session0 : LexisSession :=
  ⟨"tok", "rtok", 0, mkApiHeaderInit "tok", "user", "https://api.example", "IT4ILexisZone"⟩

/-- A 400 response whose body is not decodable as JSON. -/
def badDecodeResp : HResponse := ⟨400, none, "not json"⟩

/-! ## ddi/datasets.py : submit (C4) -/

/-- The `request_id` extraction of `_ddi_submit_download`
(ddi/datasets.py lines 645-673) applied to one resolved HTTP exchange:
run the executor on the submit response; on a non-error resolved
outcome read `content["requestId"]` (line 660) — the only wire name the
source reads; a missing key is the caught `KeyError`, which makes the
call a terminal failure (`None` returned, or `Py4LexisException` raised
when `exception_on_error` is configured — both collapsed to `none`
here). -/
def ddiSubmitDownload (s : LexisSession) (resp : HResponse) : Option PyVal :=
  match handle_request_status s resp true RefreshOutcome.postError with
  | (_, out) =>
      if out.solved then
        if out.is_error then none
        else
          match out.content with
          | RContent.json (PyVal.dict fs) => lookupField fs "requestId"
          | _ => none
      else none

/-! ## ddi/datasets.py : download poller (C2) -/

/-- Observable actions of the wait loop of `download_dataset`
(ddi/datasets.py lines 836-875): a status poll (recording the reported
`task_state`), a `session.refresh_token()` call, and the final fetch
(`_ddi_download_dataset`). -/
inductive PollEvent where
  | poll : String → PollEvent
  | refresh : PollEvent
  | fetch : PollEvent
deriving Repr, DecidableEq

/-- How the wait loop of `download_dataset` ends: fetch started,
server-declared failure carrying the server's `task_result` reason, or
the `retries == retries_max` timeout which carries no server reason. -/
inductive PollOutcome where
  | fetched : PollOutcome
  | serverFailed : String → PollOutcome
  | timedOut : PollOutcome
deriving Repr, DecidableEq

/-- `retries_max` of `download_dataset` (ddi/datasets.py line 837). -/
def retriesMaxDefault : Nat := 200

/-- Fixed inter-poll delay in seconds (ddi/datasets.py line 839). -/
def pollDelayDefault : Nat := 5

/-- Transcription of the `while retries < retries_max` loop of
`download_dataset` (ddi/datasets.py lines 845-875).  `script i` is the
`(task_state, task_result)` pair of the i-th status poll; the budget
argument is `retries_max - retries`.  A `SUCCESS` state breaks into the
fetch; `ERROR`/`FAILURE` breaks with the server-supplied reason; any
other state logs, refreshes the credential, sleeps and loops; running
out of budget is the `retries == retries_max` timeout of line 873. -/
def pollLoop (script : Nat → String × String) :
    Nat → Nat → List PollEvent × PollOutcome
  | 0, _ => ([], PollOutcome.timedOut)
  | Nat.succ budget, i =>
      let st := script i
      if st.1 = "SUCCESS" then
        ([PollEvent.poll st.1, PollEvent.fetch], PollOutcome.fetched)
      else if st.1 = "ERROR" ∨ st.1 = "FAILURE" then
        ([PollEvent.poll st.1], PollOutcome.serverFailed st.2)
      else
        match pollLoop script budget (i + 1) with
        | (evs, out) => (PollEvent.poll st.1 :: PollEvent.refresh :: evs, out)

/-- The wait loop of `download_dataset` at its default retry budget. -/
def downloadPollRun (script : Nat → String × String) : List PollEvent × PollOutcome :=
  pollLoop script retriesMaxDefault 0

/-- Scripted poll status sequence [PENDING, PENDING, SUCCESS]. -/
def scriptPPS : Nat → String × String :=
  fun i => if i < 2 then ("PENDING", "") else ("SUCCESS", "")

/-- Scripted poll status sequence that stays PENDING forever. -/
def scriptPending : Nat → String × String := fun _ => ("PENDING", "")

/-- Scripted poll status sequence failing at once with reason "boom". -/
def scriptFailure : Nat → String × String := fun _ => ("FAILURE", "boom")

/-- Recognizer for poll events (status-poll attempts) in a trace. -/
def isPollEvent : PollEvent → Bool
  | PollEvent.poll _ => true
  | _ => false

/-! ## ddi/uploader.py

The network is abstracted by two scripted oracles consumed positionally:
`att i` is the outcome of the i-th chunk transmission attempt
(`TusRequest.perform` followed by `_verify_upload`), and `offq j` the
outcome of the j-th `get_offset` HEAD query. Attempt and query indices
`ai`/`oi` are threaded through every function so that both uploader
variants consume the same scripts. -/

/-- Outcome of one chunk transmission attempt: the new cumulative
offset reported in the response's upload-offset header, or a
`TusUploadFailed` error identified by a number. -/
inductive AttemptRes where
  | ok : Nat → AttemptRes
  | fail : Nat → AttemptRes
deriving Repr, DecidableEq

/-- Outcome of one `get_offset` query: the server's authoritative
offset, or a `TusCommunicationError` identified by a number. -/
inductive OffsetRes where
  | ok : Nat → OffsetRes
  | fail : Nat → OffsetRes
deriving Repr, DecidableEq

/-- Exceptions that can escape the chunk machinery. -/
inductive UpErr where
  | tusUploadFailed : Nat → UpErr
  | tusCommError : Nat → UpErr
deriving Repr, DecidableEq

/-- Observable actions of the uploader: a create-resource POST, one
chunk transmission attempt carrying the byte range [from, from+len),
the inter-retry sleep, and a `get_offset` query. -/
inductive UpEvent where
  | createRes : UpEvent
  | send : Nat → Nat → UpEvent
  | sleepEv : Nat → UpEvent
  | queryOffset : UpEvent
deriving Repr, DecidableEq

def isSendEvent : UpEvent → Bool
  | UpEvent.send _ _ => true
  | _ => false

def isQueryEvent : UpEvent → Bool
  | UpEvent.queryOffset => true
  | _ => false

/-- Uploader configuration: `retries`, `retry_delay`, `chunk_size` and
the `stop_at` target, all attributes of `BaseUploader`. -/
structure UpCfg where
  retries : Nat
  retry_delay : Nat
  chunk_size : Nat
  stop_at : Nat

/-- Transcription of the `request_length` property (ddi/uploader.py
lines 135-141). -/
def requestLength (cfg : UpCfg) (offset : Nat) : Nat :=
  let remainder := cfg.stop_at - offset
  if remainder > cfg.chunk_size then cfg.chunk_size else remainder

/-- The mutable uploader fields the claims are about: the lazily
created resource URL and the current byte offset. -/
structure UpState where
  url : Option String
  offset : Nat
deriving Repr, DecidableEq

/-- Result of `_do_request` / `_retry_or_cry`: events, either the acked
offset of the finally successful request or the raised error, the
uploader's `offset` field at return/raise time (retries overwrite it
with re-queried values), and the next oracle indices. -/
structure DoReqOut where
  events : List UpEvent
  result : Except UpErr Nat
  offset : Nat
  ai : Nat
  oi : Nat

/-- Transcription of `Uploader._retry_or_cry` (ddi/uploader.py lines
240-252): while `retries > _retried`, sleep `retry_delay`, bump
`_retried`, re-query `get_offset` — a `TusCommunicationError` there
recurses with the new error — assign the re-queried offset and re-issue
`self._do_request()` (that nested `_do_request` call is inlined here:
one transmission attempt at the re-queried offset whose failure
recurses again); with the budget exhausted (`retries > _retried`
false), raise the error passed in — which is the failure of the most
recent attempt, not necessarily the first one.  The budget argument is
`retries - _retried`. -/
def retryOrCryS (cfg : UpCfg) (att : Nat → AttemptRes) (offq : Nat → OffsetRes) :
    Nat → Nat → Nat → Nat → UpErr → DoReqOut
  | 0 => fun offset ai oi e => ⟨[], Except.error e, offset, ai, oi⟩
  | Nat.succ budget => fun offset ai oi _ =>
      match offq oi with
      | OffsetRes.fail e2 =>
          let r := retryOrCryS cfg att offq budget offset ai (oi + 1) (UpErr.tusCommError e2)
          ⟨UpEvent.sleepEv cfg.retry_delay :: UpEvent.queryOffset :: r.events,
           r.result, r.offset, r.ai, r.oi⟩
      | OffsetRes.ok o =>
          let l := requestLength cfg o
          match att ai with
          | AttemptRes.ok acked =>
              ⟨[UpEvent.sleepEv cfg.retry_delay, UpEvent.queryOffset, UpEvent.send o l],
               Except.ok acked, o, ai + 1, oi + 1⟩
          | AttemptRes.fail e =>
              let r := retryOrCryS cfg att offq budget o (ai + 1) (oi + 1)
                         (UpErr.tusUploadFailed e)
              ⟨UpEvent.sleepEv cfg.retry_delay :: UpEvent.queryOffset ::
                 UpEvent.send o l :: r.events, r.result, r.offset, r.ai, r.oi⟩

/-- Transcription of `Uploader._do_request` (ddi/uploader.py lines
232-238): perform one transmission of `request_length` bytes starting
at the current offset; a `TusUploadFailed` outcome is handed to
`_retry_or_cry`.  `budget` is the full `retries` allowance, since
`upload_chunk` resets `_retried` to 0 before calling. -/
def doRequestS (cfg : UpCfg) (att : Nat → AttemptRes) (offq : Nat → OffsetRes)
    (budget offset ai oi : Nat) : DoReqOut :=
  let l := requestLength cfg offset
  match att ai with
  | AttemptRes.ok acked => ⟨[UpEvent.send offset l], Except.ok acked, offset, ai + 1, oi⟩
  | AttemptRes.fail e =>
      let r := retryOrCryS cfg att offq budget offset (ai + 1) oi (UpErr.tusUploadFailed e)
      ⟨UpEvent.send offset l :: r.events, r.result, r.offset, r.ai, r.oi⟩

/-- Result of one `upload_chunk` call: events, the uploader state when
the call returns or the exception escapes (Python keeps the mutations),
the escaped exception if any, and the next oracle indices. -/
structure ChunkOut where
  events : List UpEvent
  state : UpState
  err : Option UpErr
  ai : Nat
  oi : Nat

/-- Transcription of `Uploader.upload_chunk` (ddi/uploader.py lines
201-213): reset `_retried` (the full `retries` budget), lazily create
the resource URL when none is stored (`cu` is the URL the create call
returns; resetting `offset` to 0, line 208), perform the request, then
take the new offset from the response's upload-offset header
(line 210). -/
def uploadChunkS (cfg : UpCfg) (att : Nat → AttemptRes) (offq : Nat → OffsetRes)
    (cu : String) (st : UpState) (ai oi : Nat) : ChunkOut :=
  let created : List UpEvent × UpState :=
    match st.url with
    | none => ([UpEvent.createRes], ⟨some cu, 0⟩)
    | some u => ([], ⟨some u, st.offset⟩)
  let st1 := created.2
  let r := doRequestS cfg att offq cfg.retries st1.offset ai oi
  match r.result with
  | Except.ok acked => ⟨created.1 ++ r.events, ⟨st1.url, acked⟩, none, r.ai, r.oi⟩
  | Except.error e => ⟨created.1 ++ r.events, ⟨st1.url, r.offset⟩, some e, r.ai, r.oi⟩

/-- Transcription of the `while self.offset < self.stop_at` loop of
`Uploader.upload` (ddi/uploader.py lines 174-199), fuel-bounded; any
fuel of at least `stop_at / chunk_size + 1` covers a terminating run. -/
def uploadLoopS (cfg : UpCfg) (att : Nat → AttemptRes) (offq : Nat → OffsetRes)
    (cu : String) : Nat → UpState → Nat → Nat → List UpEvent × UpState × Option UpErr
  | 0, st, _, _ => ([], st, none)
  | Nat.succ fuel, st, ai, oi =>
      if st.offset < cfg.stop_at then
        match uploadChunkS cfg att offq cu st ai oi with
        | ⟨evs, st2, none, ai2, oi2⟩ =>
            match uploadLoopS cfg att offq cu fuel st2 ai2 oi2 with
            | (evs2, st3, e3) => (evs ++ evs2, st3, e3)
        | ⟨evs, st2, some e, _, _⟩ => (evs, st2, some e)
      else ([], st, none)

/-- Transcription of `AsyncUploader._retry_or_cry` (ddi/uploader.py
lines 329-341): `asyncio.sleep` replaces `time.sleep` (erased to the
same sleep event), `self.get_offset()` is the synchronous method
inherited from the tus client's `BaseUploader` (note the source calls
it without `await`), queried through the same oracle, and the nested
`await self._do_request()` is inlined as in the synchronous variant. -/
def retryOrCryA (cfg : UpCfg) (att : Nat → AttemptRes) (offq : Nat → OffsetRes) :
    Nat → Nat → Nat → Nat → UpErr → DoReqOut
  | 0 => fun offset ai oi e => ⟨[], Except.error e, offset, ai, oi⟩
  | Nat.succ budget => fun offset ai oi _ =>
      match offq oi with
      | OffsetRes.fail e2 =>
          let r := retryOrCryA cfg att offq budget offset ai (oi + 1) (UpErr.tusCommError e2)
          ⟨UpEvent.sleepEv cfg.retry_delay :: UpEvent.queryOffset :: r.events,
           r.result, r.offset, r.ai, r.oi⟩
      | OffsetRes.ok o =>
          let l := requestLength cfg o
          match att ai with
          | AttemptRes.ok acked =>
              ⟨[UpEvent.sleepEv cfg.retry_delay, UpEvent.queryOffset, UpEvent.send o l],
               Except.ok acked, o, ai + 1, oi + 1⟩
          | AttemptRes.fail e =>
              let r := retryOrCryA cfg att offq budget o (ai + 1) (oi + 1)
                         (UpErr.tusUploadFailed e)
              ⟨UpEvent.sleepEv cfg.retry_delay :: UpEvent.queryOffset ::
                 UpEvent.send o l :: r.events, r.result, r.offset, r.ai, r.oi⟩

/-- Transcription of `AsyncUploader._do_request` (ddi/uploader.py lines
321-327), with the `await` suspension points erased: the request is
performed through `AsyncTusRequest` instead of `TusRequest`, but the
control flow is that of the synchronous variant verbatim. -/
def doRequestA (cfg : UpCfg) (att : Nat → AttemptRes) (offq : Nat → OffsetRes)
    (budget offset ai oi : Nat) : DoReqOut :=
  let l := requestLength cfg offset
  match att ai with
  | AttemptRes.ok acked => ⟨[UpEvent.send offset l], Except.ok acked, offset, ai + 1, oi⟩
  | AttemptRes.fail e =>
      let r := retryOrCryA cfg att offq budget offset (ai + 1) oi (UpErr.tusUploadFailed e)
      ⟨UpEvent.send offset l :: r.events, r.result, r.offset, r.ai, r.oi⟩

/-- Transcription of `AsyncUploader.upload_chunk` (ddi/uploader.py
lines 286-298), awaits erased; the create call goes through aiohttp but
reads the same location header. -/
def uploadChunkA (cfg : UpCfg) (att : Nat → AttemptRes) (offq : Nat → OffsetRes)
    (cu : String) (st : UpState) (ai oi : Nat) : ChunkOut :=
  let created : List UpEvent × UpState :=
    match st.url with
    | none => ([UpEvent.createRes], ⟨some cu, 0⟩)
    | some u => ([], ⟨some u, st.offset⟩)
  let st1 := created.2
  let r := doRequestA cfg att offq cfg.retries st1.offset ai oi
  match r.result with
  | Except.ok acked => ⟨created.1 ++ r.events, ⟨st1.url, acked⟩, none, r.ai, r.oi⟩
  | Except.error e => ⟨created.1 ++ r.events, ⟨st1.url, r.offset⟩, some e, r.ai, r.oi⟩

/-- Transcription of `AsyncUploader.upload` (ddi/uploader.py lines
260-284), awaits erased. -/
def uploadLoopA (cfg : UpCfg) (att : Nat → AttemptRes) (offq : Nat → OffsetRes)
    (cu : String) : Nat → UpState → Nat → Nat → List UpEvent × UpState × Option UpErr
  | 0, st, _, _ => ([], st, none)
  | Nat.succ fuel, st, ai, oi =>
      if st.offset < cfg.stop_at then
        match uploadChunkA cfg att offq cu st ai oi with
        | ⟨evs, st2, none, ai2, oi2⟩ =>
            match uploadLoopA cfg att offq cu fuel st2 ai2 oi2 with
            | (evs2, st3, e3) => (evs ++ evs2, st3, e3)
        | ⟨evs, st2, some e, _, _⟩ => (evs, st2, some e)
      else ([], st, none)

/-! ## ddi/uploader.py : module name environment (C9)

Python resolves a decorator expression when the class body executes,
that is at module import time.  The names below are exactly those bound
at module level of ddi/uploader.py when the `class Uploader` statement
runs: the imports of lines 1-15 and the function defined at line 18. -/

/-- Module-level names in scope when the `Uploader` class body runs. -/
def uploaderModuleScope : List String :=
  ["Optional", "time", "asyncio", "urljoin", "requests", "aiohttp",
   "BaseUploader", "TusUploadFailed", "TusCommunicationError",
   "TusRequest", "AsyncTusRequest", "catch_requests_error",
   "printProgressBar", "ceil", "_verify_upload"]

/-- The builtin names the module's code could fall back to. -/
def pyBuiltinNames : List String :=
  ["property", "super", "classmethod", "staticmethod", "dict", "getattr",
   "str", "int", "len", "open", "print", "format", "ValueError"]

/-- Decorator names of the `Uploader` class body in evaluation order:
four `@property` (lines 36, 45, 54, 60), `@_catch_requests_error` on
`get_offset` (line 67) and on the first `create_url` (line 116), and
`@catch_requests_error` on the second `create_url` (line 215). -/
def uploaderClassDecorators : List String :=
  ["property", "property", "property", "property",
   "_catch_requests_error", "_catch_requests_error", "catch_requests_error"]

def nameDefined (n : String) : Bool :=
  uploaderModuleScope.contains n || pyBuiltinNames.contains n

/-- First name, in evaluation order, that resolves neither at module
scope nor among builtins — the name whose lookup raises `NameError`. -/
def firstUndefinedName : List String → Option String
  | [] => none
  | n :: rest => if nameDefined n then firstUndefinedName rest else some n

/-- Result of executing a class statement. -/
inductive PyClassDefResult where
  | defined : PyClassDefResult
  | nameError : String → PyClassDefResult
deriving Repr, DecidableEq

/-- Executing `class Uploader(BaseUploader): ...` evaluates every
decorator expression of the body; the first unresolvable one aborts the
class statement with a `NameError`. -/
def defineUploaderClass : PyClassDefResult :=
  match firstUndefinedName uploaderClassDecorators with
  | some n => PyClassDefResult.nameError n
  | none => PyClassDefResult.defined

/-- Names in scope inside `Uploader.__init__` (ddi/uploader.py lines
27-32): its parameters and locals, then module scope, then builtins.
Line 30 reads the bare name `upload_checksum`. -/
def uploaderInitScope : List String :=
  ["self", "log_func", "args", "kwargs"] ++ uploaderModuleScope ++ pyBuiltinNames

/-! # Theorems -/

/-- C3 (counterexample): on the specification's own two-file example,
the path column produced by `to_dataframe_row` is "./a.txt" for the
first row and "./sub/b.txt" for the second — not "root/" and
"root/sub/" as the claim states: the path starts with the "./" sentinel
part, never contains the root directory's name (the ancestor walk stops
before the root), and ends with the file's own name. -/
theorem C3_path_counterexample :
    (datasetRows 5 exampleListing).map (List.map pathStrOfRow) =
      some ["./a.txt", "./sub/b.txt"] ∧
    "./a.txt" ≠ "root/" ∧ "./sub/b.txt" ≠ "root/sub/" :=
  ⟨rfl, by decide, by decide⟩

/-- C3 (amended): the flattened tabular rendering of the two-file
example listing produces exactly two rows, one per file node and none
for directories, each row being [name, path, size, create_time,
checksum]; the path is "./" followed by the names of the ancestors
strictly below the root in root-to-leaf order and the file's own name:
["a.txt", "./a.txt", 10, "T", "c"] and ["b.txt", "./sub/b.txt", 5,
"T2", "c2"]. -/
theorem C3_example_rows :
    datasetRows 5 exampleListing =
      some [[PyVal.str "a.txt", PyVal.str "./a.txt", PyVal.int 10,
             PyVal.str "T", PyVal.str "c"],
            [PyVal.str "b.txt", PyVal.str "./sub/b.txt", PyVal.int 5,
             PyVal.str "T2", PyVal.str "c2"]] := rfl

/-- C8 (counterexample): the placeholder substituted for a missing
checksum is the literal "UKNOWN Checksum" spelled exactly as in the
source, which is not the "UNKNOWN checksum" / "UNKNOWN Checksum"
placeholder the claim states. -/
theorem C8_placeholder_spelling :
    (mkTreeFileObj []).checksum = PyVal.str "UKNOWN Checksum" ∧
    "UKNOWN Checksum" ≠ "UNKNOWN Checksum" ∧
    "UKNOWN Checksum" ≠ "UNKNOWN checksum" :=
  ⟨rfl, by decide, by decide⟩

/-- C8 (amended): constructing a tree node from a file descriptor never
fails, whatever fields are missing; each missing field is substituted
with the source's literal placeholder ("UKNOWN name", "UKNOWN size",
"UKNOWN Create Time", "UKNOWN Checksum"), and the descriptor still
yields a tabular row carrying the placeholder in the corresponding
column (shown for the checksum column, index 4). -/
theorem C8_missing_field_placeholders :
    ∀ fs : List (String × PyVal),
      (toDataframeRow (DNode.mk (TreeItem.file (mkTreeFileObj fs)) none false)).isSome
        = true ∧
      (lookupField fs "name" = none →
        (mkTreeFileObj fs).name = PyVal.str "UKNOWN name") ∧
      (lookupField fs "size" = none →
        (mkTreeFileObj fs).size = PyVal.str "UKNOWN size") ∧
      (lookupField fs "create_time" = none →
        (mkTreeFileObj fs).create_time = PyVal.str "UKNOWN Create Time") ∧
      (lookupField fs "checksum" = none →
        (mkTreeFileObj fs).checksum = PyVal.str "UKNOWN Checksum" ∧
        (toDataframeRow (DNode.mk (TreeItem.file (mkTreeFileObj fs)) none false)).bind
            (fun r => r.get? 4)
          = some (PyVal.str "UKNOWN Checksum")) := by
  intro fs
  refine ⟨rfl, ?_, ?_, ?_, ?_⟩
  · intro h; simp [mkTreeFileObj, h]
  · intro h; simp [mkTreeFileObj, h]
  · intro h; simp [mkTreeFileObj, h]
  · intro h
    refine ⟨by simp [mkTreeFileObj, h], ?_⟩
    simp [toDataframeRow, DNode.item, DNode.parent, mkTreeFileObj, h]

/-- C8 (witness): the amended statement applied to the empty file
descriptor, whose checksum field is missing. -/
theorem C8_missing_field_placeholders_witness :
    lookupField ([] : List (String × PyVal)) "checksum" = none ∧
    (mkTreeFileObj []).checksum = PyVal.str "UKNOWN Checksum" :=
  ⟨rfl, ((C8_missing_field_placeholders []).2.2.2.2 rfl).1⟩

/-- C9: executing the class body of the synchronous `Uploader` resolves
the decorator name `_catch_requests_error`, which is bound neither at
module scope nor among builtins, so the class statement aborts with a
`NameError` at module-import time and no instance can ever be
constructed; independently, `upload_checksum` read by
`Uploader.__init__` is not in scope there either. -/
theorem C9_uploader_class_name_errors :
    defineUploaderClass = PyClassDefResult.nameError "_catch_requests_error" ∧
    uploaderModuleScope.contains "_catch_requests_error" = false ∧
    pyBuiltinNames.contains "_catch_requests_error" = false ∧
    uploaderInitScope.contains "upload_checksum" = false :=
  ⟨rfl, rfl, rfl, rfl⟩

/-- C10: a successful `refresh_token` returns `True`, replaces
`API_HEADER` with a dictionary containing only the Authorization key —
in particular the "Content-type": "application/json" entry installed by
session construction is gone from every request sent afterwards — and
leaves `USERNAME`, `API_PATH` and the default zone unchanged. -/
theorem C10_refresh_drops_content_type :
    ∀ (s : LexisSession) (a r : String) (t : Nat),
      (refresh_token s (RefreshOutcome.ok a r t)).2 = true ∧
      ((refresh_token s (RefreshOutcome.ok a r t)).1).API_HEADER
        = [("Authorization", "Bearer " ++ a)] ∧
      headerLookup ((refresh_token s (RefreshOutcome.ok a r t)).1).API_HEADER
        "Content-type" = none ∧
      headerLookup (mkApiHeaderInit s.TOKEN) "Content-type"
        = some "application/json" ∧
      ((refresh_token s (RefreshOutcome.ok a r t)).1).USERNAME = s.USERNAME ∧
      ((refresh_token s (RefreshOutcome.ok a r t)).1).API_PATH = s.API_PATH ∧
      ((refresh_token s (RefreshOutcome.ok a r t)).1).DFLT_Z = s.DFLT_Z := by
  intro s a r t
  exact ⟨rfl, rfl, rfl, rfl, rfl, rfl, rfl⟩

/-- C1 (code versus claim): on a 400 response whose body cannot be
decoded as JSON, `handle_request_status` does set `is_error` — but it
leaves `status_solved` at `False`, so the caller's
`while not status_solved` resolve-loop re-issues the request: with the
same malformed response scripted twice, two requests are issued, and
the loop never terminates on such an endpoint.  The claim's
"is_error=true" half matches the code; its "not retried / terminal"
half is what the code fails to implement. -/
theorem C1_decode_failure_is_retried :
    (handle_request_status session0 badDecodeResp true RefreshOutcome.postError).2
      = ⟨RContent.json (PyVal.dict []), false, true⟩ ∧
    (resolveLoop true RefreshOutcome.postError session0
        [badDecodeResp, badDecodeResp]).2.2 = 2 :=
  ⟨rfl, rfl⟩

/-- A run of the wait loop on an all-PENDING script performs one poll
and one refresh per remaining retry and ends in the timeout outcome. -/
lemma pollLoop_pending_timeout : ∀ (n i : Nat),
    pollLoop scriptPending n i =
      ((List.replicate n [PollEvent.poll "PENDING", PollEvent.refresh]).flatten,
       PollOutcome.timedOut) := by
  intro n
  induction n with
  | zero => intro i; rfl
  | succ m ih =>
      intro i
      simp [pollLoop, scriptPending, ih (i + 1), List.replicate_succ]

/-- C2 (counterexample): with the scripted status sequence
[PENDING, PENDING, SUCCESS] the wait loop of `download_dataset` emits
the trace [poll, refresh, poll, refresh, poll, fetch]; the property the
claim asserts — every still-pending poll cycle is preceded by a
credential refresh — is false, because the very first poll attempt (at
trace index 0) has no refresh before it: the code refreshes after each
pending result, not before each poll. -/
theorem C2_first_poll_not_preceded_by_refresh :
    downloadPollRun scriptPPS =
      ([PollEvent.poll "PENDING", PollEvent.refresh, PollEvent.poll "PENDING",
        PollEvent.refresh, PollEvent.poll "SUCCESS", PollEvent.fetch],
       PollOutcome.fetched) ∧
    ¬ (∀ k, (downloadPollRun scriptPPS).1.get? k = some (PollEvent.poll "PENDING") →
        ∃ j, j + 1 = k ∧ (downloadPollRun scriptPPS).1.get? j = some PollEvent.refresh) := by
  refine ⟨rfl, ?_⟩
  intro h
  obtain ⟨j, hj, _⟩ := h 0 rfl
  omega

/-- C2 (amended): with scripted [PENDING, PENDING, SUCCESS] the poller
performs exactly 2 still-pending cycles, each followed by a credential
refresh (so every poll attempt after the first is preceded by a
refresh), then proceeds to fetch; with PENDING repeated, it polls
exactly `retries_max` (default 200, fixed 5 second delay) times,
refreshing after each, and reports the timeout outcome, which is
distinct from a server-declared failure and carries no server reason
string. -/
theorem C2_poll_cycles_and_timeout :
    downloadPollRun scriptPPS =
      ([PollEvent.poll "PENDING", PollEvent.refresh, PollEvent.poll "PENDING",
        PollEvent.refresh, PollEvent.poll "SUCCESS", PollEvent.fetch],
       PollOutcome.fetched) ∧
    downloadPollRun scriptPending =
      ((List.replicate retriesMaxDefault
          [PollEvent.poll "PENDING", PollEvent.refresh]).flatten, PollOutcome.timedOut) ∧
    ((List.replicate retriesMaxDefault
        [PollEvent.poll "PENDING", PollEvent.refresh]).flatten).countP isPollEvent
      = retriesMaxDefault ∧
    downloadPollRun scriptFailure
      = ([PollEvent.poll "FAILURE"], PollOutcome.serverFailed "boom") ∧
    (∀ rr : String, PollOutcome.timedOut ≠ PollOutcome.serverFailed rr) ∧
    retriesMaxDefault = 200 ∧ pollDelayDefault = 5 := by
  refine ⟨rfl, pollLoop_pending_timeout retriesMaxDefault 0, ?_, rfl,
    fun rr h => PollOutcome.noConfusion h, rfl, rfl⟩
  simp [List.countP_flatten, List.map_replicate, List.sum_replicate,
    List.countP_cons, isPollEvent]

/-- A 200 submit response carrying the identifier only under the wire
name `request_id`. -/
def respReqUnderscore : HResponse :=
  ⟨200, some (PyVal.dict [("request_id", PyVal.str "abc")]), ""⟩

/-- C4 (counterexample): a successful submit response that carries the
request identifier under the wire name `request_id` — present in the
body — makes the submit operation return `None` (terminal failure)
instead of the identifier: the field-name variance the claim requires
is not tolerated, only `requestId` is read. -/
theorem C4_request_id_not_tolerated :
    ddiSubmitDownload session0 respReqUnderscore = none ∧
    lookupField [("request_id", PyVal.str "abc")] "request_id"
      = some (PyVal.str "abc") :=
  ⟨rfl, rfl⟩

/-- C4 (amended): for every successful (2xx, JSON-decoded) submit
response the operation returns exactly the value stored under the
single wire name `requestId`; if that key is missing — even when the
identifier is present under `request_id` — the submit is a terminal
failure (`None`, or an exception when raise-on-error is configured). -/
theorem C4_submit_reads_requestId_only :
    ∀ (s : LexisSession) (c : Nat) (fs : List (String × PyVal)) (raw : String),
      200 ≤ c → c ≤ 299 →
      ddiSubmitDownload s ⟨c, some (PyVal.dict fs), raw⟩ = lookupField fs "requestId" := by
  intro s c fs raw h1 h2
  simp [ddiSubmitDownload, handle_request_status, h1, h2]

/-- C4 (witness): the amended statement at a concrete 200 response
carrying `requestId`. -/
theorem C4_submit_reads_requestId_only_witness :
    (200 : Nat) ≤ 200 ∧ (200 : Nat) ≤ 299 ∧
    ddiSubmitDownload session0 ⟨200, some (PyVal.dict [("requestId", PyVal.str "r1")]), ""⟩
      = some (PyVal.str "r1") :=
  ⟨by decide, by decide,
   (C4_submit_reads_requestId_only session0 200 [("requestId", PyVal.str "r1")] ""
      (by decide) (by decide)).trans rfl⟩

/-- With every transmission attempt failing (attempt j fails with error
`f j`) and every offset re-query answered, `_retry_or_cry` takes
exactly its budget of retries — one transmission per retry — and raises
the error of the most recent attempt (the carried error when the budget
is 0, otherwise the failure of the last transmission). -/
lemma retryOrCryS_all_fail (cfg : UpCfg) (f g : Nat → Nat) :
    ∀ (b o ai oi : Nat) (e : UpErr),
      (retryOrCryS cfg (fun j => AttemptRes.fail (f j)) (fun j => OffsetRes.ok (g j))
          b o ai oi e).result
        = Except.error
            (if b = 0 then e else UpErr.tusUploadFailed (f (ai + b - 1))) ∧
      ((retryOrCryS cfg (fun j => AttemptRes.fail (f j)) (fun j => OffsetRes.ok (g j))
          b o ai oi e).events).countP isSendEvent = b := by
  intro b
  induction b with
  | zero => intro o ai oi e; exact ⟨rfl, rfl⟩
  | succ m ih =>
      intro o ai oi e
      have h := ih (g oi) (ai + 1) (oi + 1) (UpErr.tusUploadFailed (f ai))
      constructor
      · simp only [retryOrCryS]
        rw [h.1]
        cases m with
        | zero => simp
        | succ k =>
            simp only [Nat.succ_ne_zero, if_false]
            have harith : ai + 1 + (k + 1) - 1 = ai + (k + 1 + 1) - 1 := by omega
            rw [harith]
      · simp only [retryOrCryS, List.countP_cons, isSendEvent]
        rw [h.2]
        simp

/-- With every transmission attempt failing, `_do_request` performs the
initial attempt plus the full retry budget of re-attempts and raises
the failure of the final attempt. -/
lemma doRequestS_all_fail (cfg : UpCfg) (f g : Nat → Nat) (b o ai oi : Nat) :
    (doRequestS cfg (fun j => AttemptRes.fail (f j)) (fun j => OffsetRes.ok (g j))
        b o ai oi).result
      = Except.error (UpErr.tusUploadFailed (f (ai + b))) ∧
    ((doRequestS cfg (fun j => AttemptRes.fail (f j)) (fun j => OffsetRes.ok (g j))
        b o ai oi).events).countP isSendEvent = b + 1 := by
  have h := retryOrCryS_all_fail cfg f g b o (ai + 1) oi (UpErr.tusUploadFailed (f ai))
  constructor
  · simp only [doRequestS]
    rw [h.1]
    cases b with
    | zero => simp
    | succ k =>
        simp only [Nat.succ_ne_zero, if_false]
        have harith : ai + 1 + (k + 1) - 1 = ai + (k + 1) := by omega
        rw [harith]
  · simp only [doRequestS, List.countP_cons, isSendEvent]
    rw [h.2]
    simp

/-- Scenario: at most 1 retry, delay 7, chunk size 4, stop at byte 8. -/
def cfgRetryOne : UpCfg := ⟨1, 7, 4, 8⟩

/-- Attempt script failing twice with two distinguishable errors. -/
def attTwoFails : Nat → AttemptRes :=
  fun i => if i = 0 then AttemptRes.fail 10 else AttemptRes.fail 11

/-- Attempt script failing once, then succeeding with acked offset 8. -/
def attFailThenOk : Nat → AttemptRes :=
  fun i => if i = 0 then AttemptRes.fail 10 else AttemptRes.ok 8

/-- Offset re-queries always answering 4. -/
def offqAt4 : Nat → OffsetRes := fun _ => OffsetRes.ok 4

/-- C5 (counterexample): the original (first) transmission failure
carries error 10; after the allowed retry also fails (error 11) the
uploader raises error 11 — the failure of the most recent attempt — so
"the original failure is re-raised to the caller" is false whenever the
attempts fail differently. -/
theorem C5_last_error_raised_counterexample :
    attTwoFails 0 = AttemptRes.fail 10 ∧
    (uploadChunkS cfgRetryOne attTwoFails offqAt4 "u" ⟨some "u", 0⟩ 0 0).err
      = some (UpErr.tusUploadFailed 11) ∧
    UpErr.tusUploadFailed 11 ≠ UpErr.tusUploadFailed 10 :=
  ⟨rfl, rfl, by decide⟩

/-- C5 (amended): a failed chunk transmission is retried up to the
configured retry count with the fixed inter-retry delay; before each
retry the server is re-queried for the authoritative offset and the
retransmission starts exactly there (no byte below the re-queried
offset is re-sent); when the retries are exceeded, the failure of the
most recent attempt — not necessarily the original one — is re-raised
to the caller. -/
theorem C5_chunk_retry_resumes_at_server_offset :
    ∀ (cfg : UpCfg) (att : Nat → AttemptRes) (offq : Nat → OffsetRes)
      (u : String) (o ai oi e0 a acked : Nat) (f g : Nat → Nat),
      (att ai = AttemptRes.fail e0 → offq oi = OffsetRes.ok a →
        att (ai + 1) = AttemptRes.ok acked → 1 ≤ cfg.retries →
        uploadChunkS cfg att offq u ⟨some u, o⟩ ai oi =
          ⟨[UpEvent.send o (requestLength cfg o), UpEvent.sleepEv cfg.retry_delay,
            UpEvent.queryOffset, UpEvent.send a (requestLength cfg a)],
           ⟨some u, acked⟩, none, ai + 1 + 1, oi + 1⟩) ∧
      ((doRequestS cfg (fun j => AttemptRes.fail (f j)) (fun j => OffsetRes.ok (g j))
          cfg.retries o ai oi).result
        = Except.error (UpErr.tusUploadFailed (f (ai + cfg.retries))) ∧
       ((doRequestS cfg (fun j => AttemptRes.fail (f j)) (fun j => OffsetRes.ok (g j))
          cfg.retries o ai oi).events).countP isSendEvent = cfg.retries + 1) := by
  intro cfg att offq u o ai oi e0 a acked f g
  refine ⟨?_, doRequestS_all_fail cfg f g cfg.retries o ai oi⟩
  intro h1 h2 h3 h4
  rcases hr : cfg.retries with _ | b
  · omega
  · simp [uploadChunkS, doRequestS, retryOrCryS, h1, h2, h3, hr]

/-- C5 (witness): the amended statement at the concrete scenario —
first attempt fails with error 10, the server reports offset 4 on
re-query, and the retry transmission starting at byte 4 succeeds with
acked offset 8. -/
theorem C5_chunk_retry_resumes_witness :
    attFailThenOk 0 = AttemptRes.fail 10 ∧
    offqAt4 0 = OffsetRes.ok 4 ∧
    attFailThenOk 1 = AttemptRes.ok 8 ∧
    1 ≤ cfgRetryOne.retries ∧
    uploadChunkS cfgRetryOne attFailThenOk offqAt4 "u" ⟨some "u", 0⟩ 0 0 =
      ⟨[UpEvent.send 0 4, UpEvent.sleepEv 7, UpEvent.queryOffset, UpEvent.send 4 4],
       ⟨some "u", 8⟩, none, 2, 1⟩ := by
  refine ⟨rfl, rfl, rfl, by decide, ?_⟩
  have h := (C5_chunk_retry_resumes_at_server_offset cfgRetryOne attFailThenOk offqAt4
      "u" 0 0 0 10 4 8 (fun j => j) (fun j => j)).1 rfl rfl rfl (by decide)
  exact h.trans rfl

/-- The retry machinery never issues a create-resource call. -/
lemma retryOrCryS_no_create (cfg : UpCfg) (att : Nat → AttemptRes)
    (offq : Nat → OffsetRes) :
    ∀ (b o ai oi : Nat) (e : UpErr),
      ((retryOrCryS cfg att offq b o ai oi e).events).count UpEvent.createRes = 0 := by
  intro b
  induction b with
  | zero => intro o ai oi e; rfl
  | succ m ih =>
      intro o ai oi e
      simp only [retryOrCryS]
      cases offq oi with
      | fail e2 => simp [List.count_cons, ih]
      | ok o2 =>
          cases att ai with
          | ok acked => simp [List.count_cons]
          | fail e3 => simp [List.count_cons, ih]

/-- `_do_request` never issues a create-resource call. -/
lemma doRequestS_no_create (cfg : UpCfg) (att : Nat → AttemptRes)
    (offq : Nat → OffsetRes) (b o ai oi : Nat) :
    ((doRequestS cfg att offq b o ai oi).events).count UpEvent.createRes = 0 := by
  simp only [doRequestS]
  cases att ai with
  | ok acked => simp [List.count_cons]
  | fail e => simp [List.count_cons, retryOrCryS_no_create]

/-- An `upload_chunk` on a state that already stores a resource URL
issues no create-resource call and keeps the stored URL. -/
lemma uploadChunkS_url_some (cfg : UpCfg) (att : Nat → AttemptRes)
    (offq : Nat → OffsetRes) (cu u : String) (st : UpState) (ai oi : Nat)
    (h : st.url = some u) :
    ((uploadChunkS cfg att offq cu st ai oi).events).count UpEvent.createRes = 0 ∧
    (uploadChunkS cfg att offq cu st ai oi).state.url = some u := by
  simp only [uploadChunkS, h]
  cases hr : (doRequestS cfg att offq cfg.retries st.offset ai oi).result with
  | ok acked => simp [hr, doRequestS_no_create]
  | error e => simp [hr, doRequestS_no_create]

/-- C6 (invariants of the upload session): (a) an `upload_chunk` on a
state that already stores a resource URL issues no create-resource call
and reuses the stored URL; (b) from a fresh state exactly one create
call is issued, and the next `upload_chunk` on the resulting state
issues none — the resource is created at most once per session; (c) on
a successful transmission the recorded offset equals the acked value of
the server's response — whatever that value is, never a locally
computed sum — and is monotonically non-decreasing whenever the server
acks at least the current offset. -/
theorem C6_upload_session_invariants :
    ∀ (cfg : UpCfg) (att : Nat → AttemptRes) (offq : Nat → OffsetRes)
      (cu : String) (st : UpState) (ai oi : Nat) (u : String) (a : Nat),
      (st.url = some u →
        ((uploadChunkS cfg att offq cu st ai oi).events).count UpEvent.createRes = 0 ∧
        (uploadChunkS cfg att offq cu st ai oi).state.url = some u) ∧
      (st.url = none →
        ((uploadChunkS cfg att offq cu st ai oi).events).count UpEvent.createRes = 1 ∧
        (uploadChunkS cfg att offq cu st ai oi).state.url = some cu ∧
        (∀ ai2 oi2 : Nat,
          ((uploadChunkS cfg att offq cu
              (uploadChunkS cfg att offq cu st ai oi).state ai2 oi2).events).count
            UpEvent.createRes = 0)) ∧
      (st.url = some u → att ai = AttemptRes.ok a →
        (uploadChunkS cfg att offq cu st ai oi).state.offset = a ∧
        (uploadChunkS cfg att offq cu st ai oi).err = none ∧
        (st.offset ≤ a → st.offset ≤ (uploadChunkS cfg att offq cu st ai oi).state.offset)) := by
  intro cfg att offq cu st ai oi u a
  refine ⟨fun h => uploadChunkS_url_some cfg att offq cu u st ai oi h, ?_, ?_⟩
  · intro h
    have hurl : (uploadChunkS cfg att offq cu st ai oi).state.url = some cu := by
      simp only [uploadChunkS, h]
      cases hr : (doRequestS cfg att offq cfg.retries 0 ai oi).result with
      | ok acked => simp [hr]
      | error e => simp [hr]
    refine ⟨?_, hurl, ?_⟩
    · simp only [uploadChunkS, h]
      cases hr : (doRequestS cfg att offq cfg.retries 0 ai oi).result with
      | ok acked => simp [hr, List.count_cons, doRequestS_no_create]
      | error e => simp [hr, List.count_cons, doRequestS_no_create]
    · intro ai2 oi2
      exact (uploadChunkS_url_some cfg att offq cu cu _ ai2 oi2 hurl).1
  · intro h hatt
    have hcall : uploadChunkS cfg att offq cu st ai oi =
        ⟨[UpEvent.send st.offset (requestLength cfg st.offset)],
         ⟨some u, a⟩, none, ai + 1, oi⟩ := by
      simp [uploadChunkS, doRequestS, h, hatt]
    refine ⟨by rw [hcall], by rw [hcall], ?_⟩
    intro hle
    rw [hcall]
    exact hle

/-- C6 (witness): the invariants applied to a concrete session — a
stored URL is reused with no create call; a fresh state creates once;
a successful transmission records the server-acked offset 8. -/
theorem C6_upload_session_invariants_witness :
    ((⟨some "u", 3⟩ : UpState).url = some "u") ∧
    ((uploadChunkS cfgRetryOne attFailThenOk offqAt4 "cu" ⟨some "u", 3⟩ 0 0).events).count
        UpEvent.createRes = 0 ∧
    ((⟨none, 3⟩ : UpState).url = none) ∧
    ((uploadChunkS cfgRetryOne attFailThenOk offqAt4 "cu" ⟨none, 3⟩ 0 0).events).count
        UpEvent.createRes = 1 ∧
    (attFailThenOk 1 = AttemptRes.ok 8) ∧
    (uploadChunkS cfgRetryOne attFailThenOk offqAt4 "cu" ⟨some "u", 3⟩ 1 0).state.offset = 8 := by
  refine ⟨rfl, ?_, rfl, ?_, rfl, ?_⟩
  · exact ((C6_upload_session_invariants cfgRetryOne attFailThenOk offqAt4
      "cu" ⟨some "u", 3⟩ 0 0 "u" 0).1 rfl).1
  · exact ((C6_upload_session_invariants cfgRetryOne attFailThenOk offqAt4
      "cu" ⟨none, 3⟩ 0 0 "u" 0).2.1 rfl).1
  · exact ((C6_upload_session_invariants cfgRetryOne attFailThenOk offqAt4
      "cu" ⟨some "u", 3⟩ 1 0 "u" 8).2.2 rfl rfl).1

/-- The synchronous and the asynchronous `_retry_or_cry` are the same
function of the oracles and the budget. -/
lemma retryOrCry_sync_eq_async (cfg : UpCfg) (att : Nat → AttemptRes)
    (offq : Nat → OffsetRes) :
    ∀ b : Nat, retryOrCryS cfg att offq b = retryOrCryA cfg att offq b := by
  intro b
  induction b with
  | zero => rfl
  | succ m ih =>
      funext offset ai oi e
      simp only [retryOrCryS, retryOrCryA]
      cases offq oi with
      | fail e2 => rw [ih]
      | ok o =>
          cases att ai with
          | ok acked => rfl
          | fail e3 => rw [ih]

/-- The synchronous and the asynchronous `_do_request` agree. -/
lemma doRequest_sync_eq_async : doRequestS = doRequestA := by
  funext cfg att offq b offset ai oi
  simp only [doRequestS, doRequestA]
  cases att ai with
  | ok acked => rfl
  | fail e => rw [retryOrCry_sync_eq_async]

/-- The synchronous and the asynchronous `upload_chunk` agree. -/
lemma uploadChunk_sync_eq_async : uploadChunkS = uploadChunkA := by
  funext cfg att offq cu st ai oi
  simp only [uploadChunkS, uploadChunkA, doRequest_sync_eq_async]

/-- The synchronous and the asynchronous `upload` loop agree. -/
lemma uploadLoop_sync_eq_async : uploadLoopS = uploadLoopA := by
  funext cfg att offq cu fuel
  induction fuel with
  | zero => rfl
  | succ m ih =>
      funext st ai oi
      simp only [uploadLoopS, uploadLoopA, uploadChunk_sync_eq_async, ih]

/-- C7: the synchronous (thread-blocking) uploader and the
concurrency-suspending uploader implement identical state-machine
semantics — the same lazy resource creation, chunk loop, offset update
and bounded retry-with-offset-resync behaviour.  Both variants,
transcribed separately from their respective class bodies with the
suspension points (the network call and the inter-retry sleep) erased
to the same observable events, are equal as functions. -/
theorem C7_sync_async_same_semantics :
    retryOrCryS = retryOrCryA ∧ doRequestS = doRequestA ∧
    uploadChunkS = uploadChunkA ∧ uploadLoopS = uploadLoopA := by
  refine ⟨?_, doRequest_sync_eq_async, uploadChunk_sync_eq_async, uploadLoop_sync_eq_async⟩
  funext cfg att offq b
  exact retryOrCry_sync_eq_async cfg att offq b

end Py4Lexis
